import Mathlib

/-!
Verification of the auto-updater launcher (src/main.c and src/launchpad.h).

The program is a straight-line pipeline: read configuration, detect whether
the target path holds a repository (opendir), then either clone (first run)
or open/fetch/resolve/analyze/apply (update run), and finally fork and run
the configured executable.  The libgit2 backend is modelled as an abstract
environment `GitEnv` recording the outcome of each external call; the
control flow of the two entry points (`main` in src/main.c and
`update_from_repo` in src/launchpad.h) is translated step by step into
`mainUpdate`, `update_from_repo`, `mainRun` and `launchProcBehavior`.
Filesystem state is abstracted to the local HEAD commit and the working
tree content (`RepoState`).
-/

/-- An abstract commit identifier (git_oid). -/
structure Oid where
  val : Nat
deriving DecidableEq

/-- One entry of FETCH_HEAD as presented to `fetchhead_cb`:
ref name, tip oid, and the is_merge flag. -/
structure FetchHeadEntry where
  ref_name : String
  oid : Oid
  is_merge : Bool
deriving DecidableEq

/-- On-disk repository state abstracted to the claims' needs:
the commit HEAD points at and the (abstract) content of the working tree. -/
structure RepoState where
  headCommit : Oid
  workTree : Nat
deriving DecidableEq

/-- Error kind of a failed opendir call (the code never inspects errno,
but the model distinguishes the kinds so that routing can be stated). -/
inductive DirErr where
  | enoent
  | eacces
  | enotdir
deriving DecidableEq

/-- Abstract backend environment: the outcome of each libgit2 / OS call made
by one run.  `none` in an `Option Int` error field means the call succeeds;
`some e` (with `e < 0` in libgit2 convention) means it fails with code `e`.
The pure-data fields describe the object database: `ancestor a b` means
commit `a` is reachable from (an ancestor of, or equal to) commit `b`,
`treeOf c` is the tree content of commit `c`, and `mergedTree h t` is the
working-tree content left by a successful `git_merge` of `t` into HEAD `h`.
`garbageOid` is the content the uninitialized stack variable `git_oid oid`
happens to hold.  `forkChildPid` is what `fork()` returns in the parent
(the child's pid, nonzero), and `systemStatus` is the return value of
`system(executable_path)`. -/
structure GitEnv where
  opendirResult : Option DirErr
  openRepoErr : Option Int
  remoteCreateErr : Option Int
  fetchErr : Option Int
  fetchheads : List FetchHeadEntry
  garbageOid : Oid
  annotatedCommitErr : Option Int
  analysisErr : Option Int
  ancestor : Oid → Oid → Bool
  treeOf : Oid → Nat
  mergedTree : Oid → Oid → Nat
  mergeErr : Option Int
  resetErr : Option Int
  cloneErr : Option Int
  remoteDefaultTip : Oid
  forkChildPid : Int
  systemStatus : Int

/-- GIT_MERGE_ANALYSIS_UP_TO_DATE bit flag (value 1 shl 1 in git2/merge.h). -/
def GIT_MERGE_ANALYSIS_UP_TO_DATE : Nat := 2

/-- GIT_MERGE_ANALYSIS_FASTFORWARD bit flag. -/
def GIT_MERGE_ANALYSIS_FASTFORWARD : Nat := 4

/-- GIT_MERGE_ANALYSIS_NORMAL bit flag. -/
def GIT_MERGE_ANALYSIS_NORMAL : Nat := 1

/-- Model of the libgit2 backend's `git_merge_analysis` classification:
up-to-date when the merge head is already reachable from HEAD,
fast-forward when HEAD is reachable from the merge head, normal otherwise. -/
def git_merge_analysis_result (env : GitEnv) (head target : Oid) : Nat :=
  if env.ancestor target head then GIT_MERGE_ANALYSIS_UP_TO_DATE
  else if env.ancestor head target then GIT_MERGE_ANALYSIS_FASTFORWARD
  else GIT_MERGE_ANALYSIS_NORMAL

/-- `fetchhead_cb` (src/main.c lines 59-66, src/launchpad.h lines 57-64):
copies the tip into the payload oid exactly when the entry has the
is_merge flag; otherwise the payload keeps its previous value.
`none` stands for "still uninitialized". -/
def fetchhead_cb (entry : FetchHeadEntry) (payload : Option Oid) : Option Oid :=
  if entry.is_merge then some entry.oid else payload

/-- `git_repository_fetchhead_foreach`: folds `fetchhead_cb` over the
FETCH_HEAD entries, threading the payload oid. -/
def fetchhead_foreach (entries : List FetchHeadEntry) (payload : Option Oid) :
    Option Oid :=
  entries.foldl (fun acc e => fetchhead_cb e acc) payload

/-- The merge-target oid the sync code ends up with after the foreach,
starting from the uninitialized stack variable (`none`). -/
def resolveMergeTarget (entries : List FetchHeadEntry) : Option Oid :=
  fetchhead_foreach entries none

/-- Observable outcome of one execution of the update branch
(either `main`'s in-line version or `update_from_repo`).
`exitedWith = some e` means the branch terminated early with error `e`
(via `exit(e)` in src/main.c, via `return e` in src/launchpad.h);
`reported` lists the codes passed to `handle_git_error`;
`resolvedTarget` is what the fetchhead foreach produced and `targetUsed`
the oid actually handed to `git_annotated_commit_from_fetchhead`;
`cleanupCalled` records whether `git_repository_state_cleanup` ran. -/
structure UpdateOutcome where
  exitedWith : Option Int
  state : RepoState
  resolvedTarget : Option Oid
  targetUsed : Option Oid
  analysis : Option Nat
  mergeCalled : Bool
  resetCalled : Bool
  commitFreed : Bool
  cleanupCalled : Bool
  reported : List Int
deriving DecidableEq

/-- Outcome shared by all early-failure paths that touch nothing. -/
def stopOutcome (st : RepoState) : UpdateOutcome :=
  { exitedWith := none
    state := st
    resolvedTarget := none
    targetUsed := none
    analysis := none
    mergeCalled := false
    resetCalled := false
    commitFreed := false
    cleanupCalled := false
    reported := [] }

/-- The update branch of `main` (src/main.c lines 148-231), step by step:
open repository (custom message, exit on failure), create anonymous remote
(exit on failure), fetch (exit on failure), fetchhead foreach into the
uninitialized oid, annotated commit from fetchhead (exit on failure),
merge analysis (exit on failure); then either the up-to-date no-op path,
or merge (failure logged and IGNORED) followed by an unconditional hard
reset (failure logged and IGNORED); finally free the annotated commit and
call `git_repository_state_cleanup`. -/
def mainUpdate (env : GitEnv) (st : RepoState) : UpdateOutcome :=
  match env.openRepoErr with
  | some e => { stopOutcome st with exitedWith := some e }
  | none =>
  match env.remoteCreateErr with
  | some e => { stopOutcome st with exitedWith := some e, reported := [e] }
  | none =>
  match env.fetchErr with
  | some e => { stopOutcome st with exitedWith := some e, reported := [e] }
  | none =>
  let resolved := resolveMergeTarget env.fetchheads
  let target := resolved.getD env.garbageOid
  match env.annotatedCommitErr with
  | some e => { stopOutcome st with
      exitedWith := some e
      reported := [e]
      resolvedTarget := resolved
      targetUsed := some target }
  | none =>
  match env.analysisErr with
  | some e => { stopOutcome st with
      exitedWith := some e
      reported := [e]
      resolvedTarget := resolved
      targetUsed := some target }
  | none =>
  let analysis := git_merge_analysis_result env st.headCommit target
  if analysis &&& GIT_MERGE_ANALYSIS_UP_TO_DATE ≠ 0 then
    { stopOutcome st with
      resolvedTarget := resolved
      targetUsed := some target
      analysis := some analysis
      commitFreed := true
      cleanupCalled := true }
  else
    let st1 := match env.mergeErr with
      | none => { st with workTree := env.mergedTree st.headCommit target }
      | some _ => st
    let rep1 : List Int := match env.mergeErr with
      | none => []
      | some e => [e]
    let st2 := match env.resetErr with
      | none => { headCommit := target, workTree := env.treeOf target }
      | some _ => st1
    let rep2 : List Int := match env.resetErr with
      | none => []
      | some e => [e]
    { exitedWith := none
      state := st2
      resolvedTarget := resolved
      targetUsed := some target
      analysis := some analysis
      mergeCalled := true
      resetCalled := true
      commitFreed := true
      cleanupCalled := true
      reported := rep1 ++ rep2 }

/-- `update_from_repo` from src/launchpad.h (lines 81-194), update branch.
Identical to `mainUpdate` except: every failure returns instead of exiting
the process, the remote-creation failure path calls
`git_repository_state_cleanup` before returning, and merge and reset
failures are FATAL (`return error`), skipping the free and cleanup calls. -/
def update_from_repo (env : GitEnv) (st : RepoState) : UpdateOutcome :=
  match env.openRepoErr with
  | some e => { stopOutcome st with exitedWith := some e }
  | none =>
  match env.remoteCreateErr with
  | some e => { stopOutcome st with
      exitedWith := some e
      reported := [e]
      cleanupCalled := true }
  | none =>
  match env.fetchErr with
  | some e => { stopOutcome st with exitedWith := some e, reported := [e] }
  | none =>
  let resolved := resolveMergeTarget env.fetchheads
  let target := resolved.getD env.garbageOid
  match env.annotatedCommitErr with
  | some e => { stopOutcome st with
      exitedWith := some e
      reported := [e]
      resolvedTarget := resolved
      targetUsed := some target }
  | none =>
  match env.analysisErr with
  | some e => { stopOutcome st with
      exitedWith := some e
      reported := [e]
      resolvedTarget := resolved
      targetUsed := some target }
  | none =>
  let analysis := git_merge_analysis_result env st.headCommit target
  if analysis &&& GIT_MERGE_ANALYSIS_UP_TO_DATE ≠ 0 then
    { stopOutcome st with
      resolvedTarget := resolved
      targetUsed := some target
      analysis := some analysis
      commitFreed := true
      cleanupCalled := true }
  else
    match env.mergeErr with
    | some e =>
      { exitedWith := some e
        state := st
        resolvedTarget := resolved
        targetUsed := some target
        analysis := some analysis
        mergeCalled := true
        resetCalled := false
        commitFreed := false
        cleanupCalled := false
        reported := [e] }
    | none =>
    let st1 : RepoState := { st with workTree := env.mergedTree st.headCommit target }
    match env.resetErr with
    | some e =>
      { exitedWith := some e
        state := st1
        resolvedTarget := resolved
        targetUsed := some target
        analysis := some analysis
        mergeCalled := true
        resetCalled := true
        commitFreed := false
        cleanupCalled := false
        reported := [e] }
    | none =>
      { exitedWith := none
        state := { headCommit := target, workTree := env.treeOf target }
        resolvedTarget := resolved
        targetUsed := some target
        analysis := some analysis
        mergeCalled := true
        resetCalled := true
        commitFreed := true
        cleanupCalled := true
        reported := [] }

/-- C's `exit(e)` / `_exit(e)`: the process exit status is the low 8 bits
of the argument. -/
def cExitStatus (e : Int) : Nat := (e % 256).toNat

/-- Exit status and observable actions of one of the two processes that
exist after `fork()` at the launch step. -/
structure ProcOutcome where
  ranExecutable : Bool
  calledWaitpid : Bool
  exitStatus : Nat
deriving DecidableEq

/-- Behavior of one process after `fork()` in src/main.c lines 251-258, as
a function of what `fork` returned in that process.  The code runs
`_exit(system(executable_path))` in the branch where the fork return value
is NONZERO (which is the parent, despite the comment saying child), and
`waitpid(pid, NULL, 0); exit(0)` in the branch where it is zero (the
child, which has no children of its own, so waitpid fails at once). -/
def launchProcBehavior (forkRet : Int) (systemStatus : Int) : ProcOutcome :=
  if forkRet ≠ 0 then
    { ranExecutable := true
      calledWaitpid := false
      exitStatus := cExitStatus systemStatus }
  else
    { ranExecutable := false
      calledWaitpid := true
      exitStatus := 0 }

/-- Observable outcome of one full run of `main` (src/main.c) from the
opendir probe onward.  `syncExit = some e` means the process called
`exit(e)` during the sync stage and the launch step never ran;
`launcherExit` is the exit status of the original launcher process and
`childExit` that of the forked child (when the launch step ran). -/
structure MainOutcome where
  syncExit : Option Int
  tookCloneBranch : Bool
  reachedLaunch : Bool
  finalState : RepoState
  launcherExit : Option Nat
  childExit : Option Nat
  parentRanExecutable : Bool
  childRanExecutable : Bool
  reported : List Int
deriving DecidableEq

/-- Full run of `main` (src/main.c lines 144-259): opendir routes to the
update branch when it succeeds and to the clone branch on ANY failure
(the errno is never examined); each branch's early failures call
`exit(error)`; otherwise control reaches the fork-based launch step. -/
def mainRun (env : GitEnv) (st : RepoState) : MainOutcome :=
  match env.opendirResult with
  | none =>
    let u := mainUpdate env st
    match u.exitedWith with
    | some e =>
      { syncExit := some e
        tookCloneBranch := false
        reachedLaunch := false
        finalState := u.state
        launcherExit := some (cExitStatus e)
        childExit := none
        parentRanExecutable := false
        childRanExecutable := false
        reported := u.reported }
    | none =>
      let parent := launchProcBehavior env.forkChildPid env.systemStatus
      let child := launchProcBehavior 0 env.systemStatus
      { syncExit := none
        tookCloneBranch := false
        reachedLaunch := true
        finalState := u.state
        launcherExit := some parent.exitStatus
        childExit := some child.exitStatus
        parentRanExecutable := parent.ranExecutable
        childRanExecutable := child.ranExecutable
        reported := u.reported }
  | some _ =>
    match env.cloneErr with
    | some e =>
      { syncExit := some e
        tookCloneBranch := true
        reachedLaunch := false
        finalState := st
        launcherExit := some (cExitStatus e)
        childExit := none
        parentRanExecutable := false
        childRanExecutable := false
        reported := [e] }
    | none =>
      let stc : RepoState :=
        { headCommit := env.remoteDefaultTip
          workTree := env.treeOf env.remoteDefaultTip }
      let parent := launchProcBehavior env.forkChildPid env.systemStatus
      let child := launchProcBehavior 0 env.systemStatus
      { syncExit := none
        tookCloneBranch := true
        reachedLaunch := true
        finalState := stc
        launcherExit := some parent.exitStatus
        childExit := some child.exitStatus
        parentRanExecutable := parent.ranExecutable
        childRanExecutable := child.ranExecutable
        reported := [] }

/-- C `strlen` over a byte image: the number of bytes before the first NUL. -/
def strlen (mem : List Nat) : Nat := (mem.takeWhile (fun b => b ≠ 0)).length

/-- `copy_string` (src/main.c lines 74-80, src/launchpad.h lines 72-78):
`malloc(strlen(str))` then `memcpy(buf, str, strlen(str))` — the returned
buffer is exactly the first `strlen` bytes, with no NUL terminator written. -/
def copy_string (mem : List Nat) : List Nat := mem.take (strlen mem)

/-- A concrete on-disk state for witnesses: HEAD at commit 5, tree 5. -/
def st0 : RepoState := { headCommit := ⟨5⟩, workTree := 5 }

/-- A concrete all-success environment for witnesses: the remote's merge tip
is commit 5 (equal to the local HEAD), ancestry is plain equality, the tree
of a commit is its number. -/
def baseEnv : GitEnv :=
  { opendirResult := none
    openRepoErr := none
    remoteCreateErr := none
    fetchErr := none
    fetchheads := [{ ref_name := "refs/heads/main", oid := ⟨5⟩, is_merge := true }]
    garbageOid := ⟨99⟩
    annotatedCommitErr := none
    analysisErr := none
    ancestor := fun a b => a.val == b.val
    treeOf := fun o => o.val
    mergedTree := fun _ _ => 1000
    mergeErr := none
    resetErr := none
    cloneErr := none
    remoteDefaultTip := ⟨5⟩
    forkChildPid := 1234
    systemStatus := 0 }

/-- `copy_string`'s buffer is exactly the prefix of the image before the
first NUL byte. -/
theorem copy_string_eq_takeWhile (mem : List Nat) :
    copy_string mem = mem.takeWhile (fun b => b ≠ 0) := by
  induction mem with
  | nil => rfl
  | cons a l ih =>
    by_cases h : a = 0
    · simp [copy_string, strlen, List.takeWhile, h]
    · simp only [copy_string, strlen, List.takeWhile, h, decide_not] at ih ⊢
      simp only [decide_False, Bool.not_false, List.length_cons, List.take_succ_cons,
        List.cons.injEq, true_and]
      exact ih

/-- A byte image that contains a NUL has `strlen` strictly below its length. -/
theorem strlen_lt_of_mem_zero (mem : List Nat) (h : (0 : Nat) ∈ mem) :
    strlen mem < mem.length := by
  induction mem with
  | nil => cases h
  | cons a l ih =>
    by_cases ha : a = 0
    · simp [strlen, List.takeWhile, ha]
    · have hl : (0 : Nat) ∈ l := by
        cases h with
        | head => exact absurd rfl ha
        | tail _ h2 => exact h2
      have := ih hl
      simp only [strlen, List.takeWhile, ha, decide_not, decide_False, Bool.not_false,
        List.length_cons] at *
      omega

/-- C10: `copy_string` returns a buffer of exactly `strlen` bytes holding the
input's bytes before the NUL, and the buffer itself contains no NUL byte —
it is not a NUL-terminated C string (the allocation is one byte too small
for the terminator). -/
theorem copy_string_no_nul (mem : List Nat) (h : (0 : Nat) ∈ mem) :
    (copy_string mem).length = strlen mem ∧
    copy_string mem = mem.take (strlen mem) ∧
    (0 : Nat) ∉ copy_string mem ∧
    strlen mem < mem.length := by
  refine ⟨?_, rfl, ?_, strlen_lt_of_mem_zero mem h⟩
  · rw [copy_string_eq_takeWhile]
    rfl
  · rw [copy_string_eq_takeWhile]
    intro hmem
    have := List.mem_takeWhile_imp hmem
    simp at this

/-- Witness for C10 at the concrete image "hi\0" = [104, 105, 0]. -/
theorem copy_string_no_nul_witness :
    (copy_string [104, 105, 0]).length = strlen [104, 105, 0] ∧
    copy_string [104, 105, 0] = [104, 105, 0].take (strlen [104, 105, 0]) ∧
    (0 : Nat) ∉ copy_string [104, 105, 0] ∧
    strlen [104, 105, 0] < ([104, 105, 0] : List Nat).length :=
  copy_string_no_nul [104, 105, 0] (by decide)

/-- C3: divergence at the launch step (src/main.c lines 251-258).  `fork`
returns the child's pid (nonzero, here 1234) IN THE PARENT and 0 in the
child, so the branch commented "We're in the child program" runs in the
parent: the parent executes `system(executable_path)` and `_exit`s with its
status, while the child never runs the executable — it calls `waitpid`
(which fails at once, the child has no children) and exits 0.  The claimed
fork-detach policy (child replaces itself with the target, parent waits)
is the opposite of what the code does. -/
theorem launch_branches_swapped :
    (launchProcBehavior 1234 7).ranExecutable = true ∧
    (launchProcBehavior 1234 7).calledWaitpid = false ∧
    (launchProcBehavior 1234 7).exitStatus = 7 ∧
    (launchProcBehavior 0 7).ranExecutable = false ∧
    (launchProcBehavior 0 7).calledWaitpid = true ∧
    (launchProcBehavior 0 7).exitStatus = 0 := by decide

/-- C6 counterexample: a permission-denied failure of the opendir probe
routes to the fresh-clone branch exactly like not-found — it does not
propagate distinctly. -/
theorem opendir_eacces_routes_to_clone :
    (mainRun { baseEnv with opendirResult := some DirErr.eacces } st0).tookCloneBranch
      = true := by decide

/-- C6 amended: `main` (src/main.c lines 144-145, 232-244) routes EVERY
opendir failure to the clone branch; the error kind (errno) is never
examined, so permission-denied and not-a-directory are conflated with
not-found rather than propagating distinctly. -/
theorem opendir_any_failure_routes_to_clone (env : GitEnv) (st : RepoState)
    (d : DirErr) (h : env.opendirResult = some d) :
    (mainRun env st).tookCloneBranch = true := by
  cases hc : env.cloneErr <;> simp [mainRun, h, hc]

/-- Witness for the amended C6 at a concrete not-a-directory failure. -/
theorem opendir_any_failure_routes_to_clone_witness :
    (mainRun { baseEnv with opendirResult := some DirErr.enotdir } st0).tookCloneBranch
      = true :=
  opendir_any_failure_routes_to_clone
    { baseEnv with opendirResult := some DirErr.enotdir } st0 DirErr.enotdir rfl

/-- C7: when no fetched ref is flagged as merge target (here FETCH_HEAD
holds only a non-merge entry), the fetchhead foreach leaves the payload oid
untouched — i.e. the stack `git_oid oid` stays uninitialized (modelled as
the arbitrary `garbageOid`) — and the update branch of `main` (src/main.c
lines 182-191) proceeds to `git_annotated_commit_from_fetchhead`, the
analysis and the merge with that undefined commit: no
`SyncError::NoMergeTarget` failure exists anywhere in the code. -/
theorem no_merge_target_proceeds_with_garbage :
    resolveMergeTarget [{ ref_name := "refs/tags/v1", oid := ⟨9⟩, is_merge := false }]
      = none ∧
    (mainUpdate
        { baseEnv with
          fetchheads := [{ ref_name := "refs/tags/v1", oid := ⟨9⟩, is_merge := false }] }
        st0).resolvedTarget = none ∧
    (mainUpdate
        { baseEnv with
          fetchheads := [{ ref_name := "refs/tags/v1", oid := ⟨9⟩, is_merge := false }] }
        st0).targetUsed = some ⟨99⟩ ∧
    (mainUpdate
        { baseEnv with
          fetchheads := [{ ref_name := "refs/tags/v1", oid := ⟨9⟩, is_merge := false }] }
        st0).exitedWith = none ∧
    (mainUpdate
        { baseEnv with
          fetchheads := [{ ref_name := "refs/tags/v1", oid := ⟨9⟩, is_merge := false }] }
        st0).mergeCalled = true := by decide

/-- C1 counterexample: a fetch failure (code -2) does NOT fall through to
the launch step — `main` calls `exit(error)` (src/main.c lines 176-180)
and the launch step never executes. -/
theorem fetch_failure_skips_launch :
    (mainRun { baseEnv with fetchErr := some (-2) } st0).reachedLaunch = false ∧
    (mainRun { baseEnv with fetchErr := some (-2) } st0).syncExit = some (-2) ∧
    (mainRun { baseEnv with fetchErr := some (-2) } st0).finalState = st0 := by
  decide

/-- C1 amended: in src/main.c only MERGE and RESET failures are reported
and swallowed, with the launch step still executing on whatever state is
on disk; clone, open, remote-creation, fetch, resolve and analysis
failures instead call `exit(error)` and the launch step does not execute
(on a fetch failure the local tree is left unchanged, but nothing is
launched). -/
theorem sync_error_handling_split (env : GitEnv) (st : RepoState) (e : Int)
    (hdir : env.opendirResult = none)
    (hopen : env.openRepoErr = none)
    (hrem : env.remoteCreateErr = none) :
    (env.fetchErr = some e →
      (mainRun env st).reachedLaunch = false ∧
      (mainRun env st).syncExit = some e ∧
      (mainRun env st).finalState = st ∧
      e ∈ (mainRun env st).reported) ∧
    (env.fetchErr = none → env.annotatedCommitErr = none → env.analysisErr = none →
      git_merge_analysis_result env st.headCommit
          ((resolveMergeTarget env.fetchheads).getD env.garbageOid) &&&
        GIT_MERGE_ANALYSIS_UP_TO_DATE = 0 →
      env.mergeErr = some e →
      (mainRun env st).reachedLaunch = true ∧
      (mainRun env st).syncExit = none ∧
      e ∈ (mainRun env st).reported) := by
  constructor
  · intro hf
    simp [mainRun, mainUpdate, stopOutcome, hdir, hopen, hrem, hf]
  · intro hf hac han hnot hm
    simp [mainRun, mainUpdate, stopOutcome, hdir, hopen, hrem, hf, hac, han, hnot, hm]

/-- Witness for the amended C1: a concrete merge failure (code -7) is
reported and swallowed and the launch step still runs. -/
theorem sync_error_handling_split_witness :
    (mainRun
        { baseEnv with
          fetchheads := [{ ref_name := "refs/heads/main", oid := ⟨6⟩, is_merge := true }]
          mergeErr := some (-7) } st0).reachedLaunch = true ∧
    (mainRun
        { baseEnv with
          fetchheads := [{ ref_name := "refs/heads/main", oid := ⟨6⟩, is_merge := true }]
          mergeErr := some (-7) } st0).syncExit = none ∧
    (-7 : Int) ∈ (mainRun
        { baseEnv with
          fetchheads := [{ ref_name := "refs/heads/main", oid := ⟨6⟩, is_merge := true }]
          mergeErr := some (-7) } st0).reported :=
  (sync_error_handling_split
      { baseEnv with
        fetchheads := [{ ref_name := "refs/heads/main", oid := ⟨6⟩, is_merge := true }]
        mergeErr := some (-7) } st0 (-7) rfl rfl rfl).2 rfl rfl rfl (by decide) rfl

/-- C4 counterexample: a fetch failure makes the process exit 253
(`exit(-3)`, low byte) without reaching the launch step — a non-zero exit
code from a sync failure, not a pre-sync configuration error; and a run
whose spawned command is killed by a signal (system returns 9) reaches the
launch step yet the launcher process exits 9, not 0. -/
theorem exit_code_claims_fail :
    (mainRun { baseEnv with fetchErr := some (-3) } st0).launcherExit = some 253 ∧
    (mainRun { baseEnv with fetchErr := some (-3) } st0).reachedLaunch = false ∧
    (mainRun { baseEnv with systemStatus := 9 } st0).reachedLaunch = true ∧
    (mainRun { baseEnv with systemStatus := 9 } st0).launcherExit = some 9 := by
  decide

/-- C4 amended: sync-stage failures call `exit(error)` whose low byte is
non-zero for the usual libgit2 codes, so non-zero exits are not limited to
pre-sync configuration errors; on runs that do reach the launch step the
forked child exits 0 while the original launcher process exits with the
low byte of `system(executable_path)`'s return status (0 when the command
exits normally through the shell, since the command's code sits in the
high byte, but non-zero e.g. when `system` fails or the command is killed
by a signal). -/
theorem exit_code_amended (env : GitEnv) (st : RepoState) (e : Int)
    (hdir : env.opendirResult = none)
    (hopen : env.openRepoErr = none)
    (hrem : env.remoteCreateErr = none)
    (hpid : env.forkChildPid ≠ 0)
    (he1 : -256 < e) (he2 : e < 0) :
    (env.fetchErr = some e →
      (mainRun env st).launcherExit = some (cExitStatus e) ∧
      cExitStatus e ≠ 0 ∧
      (mainRun env st).reachedLaunch = false) ∧
    ((mainRun env st).reachedLaunch = true →
      (mainRun env st).launcherExit = some (cExitStatus env.systemStatus) ∧
      (mainRun env st).childExit = some 0 ∧
      (mainRun env st).parentRanExecutable = true ∧
      (mainRun env st).childRanExecutable = false) := by
  have hz : cExitStatus e ≠ 0 := by
    unfold cExitStatus
    omega
  constructor
  · intro hf
    refine ⟨?_, hz, ?_⟩ <;>
      simp [mainRun, mainUpdate, stopOutcome, hdir, hopen, hrem, hf]
  · intro hr
    cases hu : (mainUpdate env st).exitedWith with
    | some e2 =>
      simp [mainRun, hdir, hu] at hr
    | none =>
      simp [mainRun, hdir, hu, launchProcBehavior, hpid]

/-- Witness for the amended C4 at a concrete fetch failure with code -5. -/
theorem exit_code_amended_witness :
    (mainRun { baseEnv with fetchErr := some (-5) } st0).launcherExit
        = some (cExitStatus (-5)) ∧
    cExitStatus (-5) ≠ 0 ∧
    (mainRun { baseEnv with fetchErr := some (-5) } st0).reachedLaunch = false :=
  (exit_code_amended { baseEnv with fetchErr := some (-5) } st0 (-5) rfl rfl rfl
    (by decide) (by decide) (by decide)).1 rfl

/-- C2: in the update branch of `main` (src/main.c lines 204-225), whenever
the analysis is anything but up-to-date, the merge is attempted and the
hard reset is attempted unconditionally afterwards (merge failures are
only logged), so that when the reset succeeds the final HEAD is the
resolved merge-target commit and the working tree is exactly that commit's
tree — independent of the merge outcome (`env.mergeErr` is unconstrained)
and of the prior local state `st`. -/
theorem merge_then_unconditional_reset (env : GitEnv) (st : RepoState) (tip : Oid)
    (hopen : env.openRepoErr = none)
    (hrem : env.remoteCreateErr = none)
    (hfetch : env.fetchErr = none)
    (hres : resolveMergeTarget env.fetchheads = some tip)
    (hac : env.annotatedCommitErr = none)
    (han : env.analysisErr = none)
    (hnot : git_merge_analysis_result env st.headCommit tip &&&
      GIT_MERGE_ANALYSIS_UP_TO_DATE = 0)
    (hreset : env.resetErr = none) :
    (mainUpdate env st).mergeCalled = true ∧
    (mainUpdate env st).resetCalled = true ∧
    (mainUpdate env st).exitedWith = none ∧
    (mainUpdate env st).state = { headCommit := tip, workTree := env.treeOf tip } := by
  simp [mainUpdate, stopOutcome, hopen, hrem, hfetch, hres, hac, han, hnot, hreset]

/-- Witness for C2: concrete run with remote tip 6, local HEAD 5 and a
FAILED merge (code -7); the reset still lands the tree on commit 6. -/
theorem merge_then_unconditional_reset_witness :
    (mainUpdate
        { baseEnv with
          fetchheads := [{ ref_name := "refs/heads/main", oid := ⟨6⟩, is_merge := true }]
          mergeErr := some (-7) } st0).mergeCalled = true ∧
    (mainUpdate
        { baseEnv with
          fetchheads := [{ ref_name := "refs/heads/main", oid := ⟨6⟩, is_merge := true }]
          mergeErr := some (-7) } st0).resetCalled = true ∧
    (mainUpdate
        { baseEnv with
          fetchheads := [{ ref_name := "refs/heads/main", oid := ⟨6⟩, is_merge := true }]
          mergeErr := some (-7) } st0).exitedWith = none ∧
    (mainUpdate
        { baseEnv with
          fetchheads := [{ ref_name := "refs/heads/main", oid := ⟨6⟩, is_merge := true }]
          mergeErr := some (-7) } st0).state
      = { headCommit := ⟨6⟩
          workTree := ({ baseEnv with
            fetchheads := [{ ref_name := "refs/heads/main", oid := ⟨6⟩, is_merge := true }]
            mergeErr := some (-7) } : GitEnv).treeOf ⟨6⟩ } :=
  merge_then_unconditional_reset
    { baseEnv with
      fetchheads := [{ ref_name := "refs/heads/main", oid := ⟨6⟩, is_merge := true }]
      mergeErr := some (-7) } st0 ⟨6⟩ rfl rfl rfl rfl rfl rfl (by decide) rfl

/-- When every sync step succeeds and the analysis is up-to-date, the
update branch of `main` is a pure no-op apart from the free and cleanup
calls. -/
theorem mainUpdate_up_to_date (env : GitEnv) (st : RepoState) (tip : Oid)
    (hopen : env.openRepoErr = none)
    (hrem : env.remoteCreateErr = none)
    (hfetch : env.fetchErr = none)
    (hres : resolveMergeTarget env.fetchheads = some tip)
    (hac : env.annotatedCommitErr = none)
    (han : env.analysisErr = none)
    (hup : git_merge_analysis_result env st.headCommit tip &&&
      GIT_MERGE_ANALYSIS_UP_TO_DATE ≠ 0) :
    mainUpdate env st = { stopOutcome st with
      resolvedTarget := some tip
      targetUsed := some tip
      analysis := some (git_merge_analysis_result env st.headCommit tip)
      commitFreed := true
      cleanupCalled := true } := by
  simp [mainUpdate, hopen, hrem, hfetch, hres, hac, han, hup]

/-- C5: against a target already synced to the remote tip (HEAD equals the
resolved merge target) and with no upstream change, a run of the update
branch classifies up-to-date and mutates nothing, so a second identical
run again classifies up-to-date, takes the no-action path (no merge, no
reset), and leaves the state byte-identical. -/
theorem update_idempotent (env : GitEnv) (st : RepoState) (tip : Oid)
    (hopen : env.openRepoErr = none)
    (hrem : env.remoteCreateErr = none)
    (hfetch : env.fetchErr = none)
    (hres : resolveMergeTarget env.fetchheads = some tip)
    (hac : env.annotatedCommitErr = none)
    (han : env.analysisErr = none)
    (hsync : st.headCommit = tip)
    (hanc : env.ancestor tip tip = true) :
    (mainUpdate env st).state = st ∧
    (mainUpdate env st).exitedWith = none ∧
    (mainUpdate env (mainUpdate env st).state).analysis
      = some GIT_MERGE_ANALYSIS_UP_TO_DATE ∧
    (mainUpdate env (mainUpdate env st).state).mergeCalled = false ∧
    (mainUpdate env (mainUpdate env st).state).resetCalled = false ∧
    (mainUpdate env (mainUpdate env st).state).exitedWith = none ∧
    (mainUpdate env (mainUpdate env st).state).state = st := by
  have hA : git_merge_analysis_result env st.headCommit tip
      = GIT_MERGE_ANALYSIS_UP_TO_DATE := by
    simp [git_merge_analysis_result, hsync, hanc]
  have hup : git_merge_analysis_result env st.headCommit tip &&&
      GIT_MERGE_ANALYSIS_UP_TO_DATE ≠ 0 := by
    rw [hA]
    decide
  have e1 := mainUpdate_up_to_date env st tip hopen hrem hfetch hres hac han hup
  have hst : (mainUpdate env st).state = st := by
    rw [e1]
    rfl
  rw [hst, e1, hA]
  exact ⟨rfl, rfl, rfl, rfl, rfl, rfl, rfl⟩

/-- Witness for C5 at the concrete all-success environment, HEAD already
at the remote tip 5. -/
theorem update_idempotent_witness :
    (mainUpdate baseEnv st0).state = st0 ∧
    (mainUpdate baseEnv st0).exitedWith = none ∧
    (mainUpdate baseEnv (mainUpdate baseEnv st0).state).analysis
      = some GIT_MERGE_ANALYSIS_UP_TO_DATE ∧
    (mainUpdate baseEnv (mainUpdate baseEnv st0).state).mergeCalled = false ∧
    (mainUpdate baseEnv (mainUpdate baseEnv st0).state).resetCalled = false ∧
    (mainUpdate baseEnv (mainUpdate baseEnv st0).state).exitedWith = none ∧
    (mainUpdate baseEnv (mainUpdate baseEnv st0).state).state = st0 :=
  update_idempotent baseEnv st0 ⟨5⟩ rfl rfl rfl rfl rfl rfl rfl (by decide)

/-- C8 counterexample: in `update_from_repo` (src/launchpad.h lines
119-123) a fetch failure returns the error immediately WITHOUT any cleanup
call — the repository handle opened in step 1 is not released on this exit
path. -/
theorem fetch_failure_skips_cleanup :
    (update_from_repo { baseEnv with fetchErr := some (-6) } st0).exitedWith
      = some (-6) ∧
    (update_from_repo { baseEnv with fetchErr := some (-6) } st0).cleanupCalled
      = false := by decide

/-- C8 amended: the explicit cleanup call
(`git_repository_state_cleanup`) runs only on the successful-completion
path and on the remote-creation-failure path of `update_from_repo`; the
fetch, resolve, analysis, merge and reset failure paths all return the
error without any cleanup call (and `git_repository_free` is never called
anywhere). -/
theorem cleanup_only_on_some_paths (env : GitEnv) (st : RepoState) (e : Int)
    (hopen : env.openRepoErr = none) :
    (env.remoteCreateErr = some e →
      (update_from_repo env st).cleanupCalled = true ∧
      (update_from_repo env st).exitedWith = some e) ∧
    (env.remoteCreateErr = none → env.fetchErr = some e →
      (update_from_repo env st).cleanupCalled = false ∧
      (update_from_repo env st).exitedWith = some e) ∧
    (env.remoteCreateErr = none → env.fetchErr = none →
      env.annotatedCommitErr = some e →
      (update_from_repo env st).cleanupCalled = false ∧
      (update_from_repo env st).exitedWith = some e) ∧
    (env.remoteCreateErr = none → env.fetchErr = none →
      env.annotatedCommitErr = none → env.analysisErr = none →
      git_merge_analysis_result env st.headCommit
          ((resolveMergeTarget env.fetchheads).getD env.garbageOid) &&&
        GIT_MERGE_ANALYSIS_UP_TO_DATE = 0 →
      env.mergeErr = some e →
      (update_from_repo env st).cleanupCalled = false ∧
      (update_from_repo env st).exitedWith = some e) ∧
    (env.remoteCreateErr = none → env.fetchErr = none →
      env.annotatedCommitErr = none → env.analysisErr = none →
      env.mergeErr = none → env.resetErr = none →
      (update_from_repo env st).cleanupCalled = true ∧
      (update_from_repo env st).exitedWith = none) := by
  refine ⟨?_, ?_, ?_, ?_, ?_⟩
  · intro hrem
    simp [update_from_repo, stopOutcome, hopen, hrem]
  · intro hrem hf
    simp [update_from_repo, stopOutcome, hopen, hrem, hf]
  · intro hrem hf hac
    simp [update_from_repo, stopOutcome, hopen, hrem, hf, hac]
  · intro hrem hf hac han hnot hm
    simp [update_from_repo, stopOutcome, hopen, hrem, hf, hac, han, hnot, hm]
  · intro hrem hf hac han hm hr
    by_cases hc : git_merge_analysis_result env st.headCommit
        ((resolveMergeTarget env.fetchheads).getD env.garbageOid) &&&
      GIT_MERGE_ANALYSIS_UP_TO_DATE = 0
    · simp [update_from_repo, stopOutcome, hopen, hrem, hf, hac, han, hm, hr, hc]
    · simp [update_from_repo, stopOutcome, hopen, hrem, hf, hac, han, hm, hr, hc]

/-- Witness for the amended C8: concrete fetch failure (code -8) returns
without cleanup. -/
theorem cleanup_only_on_some_paths_witness :
    (update_from_repo { baseEnv with fetchErr := some (-8) } st0).cleanupCalled
      = false ∧
    (update_from_repo { baseEnv with fetchErr := some (-8) } st0).exitedWith
      = some (-8) :=
  (cleanup_only_on_some_paths { baseEnv with fetchErr := some (-8) } st0 (-8)
    rfl).2.1 rfl rfl

/-- C9: the two near-duplicate update implementations disagree on merge
and reset failures.  With every earlier step succeeding and the analysis
not up-to-date: on a merge failure `main` (src/main.c lines 211-224) only
logs and continues to the reset, while `update_from_repo` (src/launchpad.h
lines 154-169) returns the error and never reaches the reset; on a reset
failure `main` continues to the free and cleanup calls, while
`update_from_repo` returns the error skipping both.  On either input the
two outcomes are not equal. -/
theorem main_vs_launchpad_divergence (env : GitEnv) (st : RepoState) (e : Int)
    (hopen : env.openRepoErr = none)
    (hrem : env.remoteCreateErr = none)
    (hfetch : env.fetchErr = none)
    (hac : env.annotatedCommitErr = none)
    (han : env.analysisErr = none)
    (hnot : git_merge_analysis_result env st.headCommit
        ((resolveMergeTarget env.fetchheads).getD env.garbageOid) &&&
      GIT_MERGE_ANALYSIS_UP_TO_DATE = 0) :
    (env.mergeErr = some e →
      (mainUpdate env st).exitedWith = none ∧
      (mainUpdate env st).resetCalled = true ∧
      (update_from_repo env st).exitedWith = some e ∧
      (update_from_repo env st).resetCalled = false ∧
      mainUpdate env st ≠ update_from_repo env st) ∧
    (env.mergeErr = none → env.resetErr = some e →
      (mainUpdate env st).exitedWith = none ∧
      (mainUpdate env st).cleanupCalled = true ∧
      (update_from_repo env st).exitedWith = some e ∧
      (update_from_repo env st).cleanupCalled = false ∧
      mainUpdate env st ≠ update_from_repo env st) := by
  constructor
  · intro hm
    have h1 : (mainUpdate env st).exitedWith = none := by
      simp [mainUpdate, stopOutcome, hopen, hrem, hfetch, hac, han, hnot, hm]
    have h2 : (update_from_repo env st).exitedWith = some e := by
      simp [update_from_repo, stopOutcome, hopen, hrem, hfetch, hac, han, hnot, hm]
    refine ⟨h1, ?_, h2, ?_, ?_⟩
    · simp [mainUpdate, stopOutcome, hopen, hrem, hfetch, hac, han, hnot, hm]
    · simp [update_from_repo, stopOutcome, hopen, hrem, hfetch, hac, han, hnot, hm]
    · intro hcontra
      rw [hcontra, h2] at h1
      exact Option.noConfusion h1
  · intro hm hr
    have h1 : (mainUpdate env st).exitedWith = none := by
      simp [mainUpdate, stopOutcome, hopen, hrem, hfetch, hac, han, hnot, hm, hr]
    have h2 : (update_from_repo env st).exitedWith = some e := by
      simp [update_from_repo, stopOutcome, hopen, hrem, hfetch, hac, han, hnot, hm, hr]
    refine ⟨h1, ?_, h2, ?_, ?_⟩
    · simp [mainUpdate, stopOutcome, hopen, hrem, hfetch, hac, han, hnot, hm, hr]
    · simp [update_from_repo, stopOutcome, hopen, hrem, hfetch, hac, han, hnot, hm, hr]
    · intro hcontra
      rw [hcontra, h2] at h1
      exact Option.noConfusion h1

/-- Witness for C9: concrete merge failure (code -9) with remote tip 6 and
local HEAD 5 — `main` swallows it and still resets, `update_from_repo`
returns it. -/
theorem main_vs_launchpad_divergence_witness :
    (mainUpdate
        { baseEnv with
          fetchheads := [{ ref_name := "refs/heads/main", oid := ⟨6⟩, is_merge := true }]
          mergeErr := some (-9) } st0).exitedWith = none ∧
    (mainUpdate
        { baseEnv with
          fetchheads := [{ ref_name := "refs/heads/main", oid := ⟨6⟩, is_merge := true }]
          mergeErr := some (-9) } st0).resetCalled = true ∧
    (update_from_repo
        { baseEnv with
          fetchheads := [{ ref_name := "refs/heads/main", oid := ⟨6⟩, is_merge := true }]
          mergeErr := some (-9) } st0).exitedWith = some (-9) ∧
    (update_from_repo
        { baseEnv with
          fetchheads := [{ ref_name := "refs/heads/main", oid := ⟨6⟩, is_merge := true }]
          mergeErr := some (-9) } st0).resetCalled = false ∧
    mainUpdate
        { baseEnv with
          fetchheads := [{ ref_name := "refs/heads/main", oid := ⟨6⟩, is_merge := true }]
          mergeErr := some (-9) } st0
      ≠ update_from_repo
        { baseEnv with
          fetchheads := [{ ref_name := "refs/heads/main", oid := ⟨6⟩, is_merge := true }]
          mergeErr := some (-9) } st0 :=
  (main_vs_launchpad_divergence
      { baseEnv with
        fetchheads := [{ ref_name := "refs/heads/main", oid := ⟨6⟩, is_merge := true }]
        mergeErr := some (-9) } st0 (-9) rfl rfl rfl rfl rfl (by decide)).1 rfl
